import Mathlib

/-!
Verification of the invoice pricing engine (`src/invoice_service.py`).

Numeric embedding: Python `float` prices, fees and rates are modelled as
exact rationals (`ℚ`); Python `int` quantities as `ℤ`.  Shipping-table
bounds may be `float("inf")`, modelled as `Option ℚ` with `none` = ∞.
Python's `Optional[str]` coupon is `Option String`; the mutable warnings
list is threaded explicitly; `raise ValueError` becomes `Except.error`.
-/

namespace InvoiceService

/-- Python module constant `VALID_CATEGORIES` (a set of four strings). -/
def VALID_CATEGORIES : List String := ["book", "food", "electronics", "other"]

/-- Python module constant `FRAGILE_FEE_PER_ITEM = 5.0`. -/
def FRAGILE_FEE_PER_ITEM : ℚ := 5

/-- The `LineItem` dataclass. -/
structure LineItem where
  sku : String
  category : String
  unit_price : ℚ
  qty : ℤ
  fragile : Bool := false
deriving DecidableEq

/-- The `Invoice` dataclass; `coupon: Optional[str]` becomes `Option String`. -/
structure Invoice where
  invoice_id : String
  customer_id : String
  country : String
  membership : String
  coupon : Option String
  items : List LineItem
deriving DecidableEq

/-- Class attribute `SHIPPING_RULES`; a bound of `none` stands for `float("inf")`. -/
def SHIPPING_RULES : List (String × List (Option ℚ × ℚ)) :=
  [("TH", [(some 500, 60), (none, 0)]),
   ("JP", [(some 4000, 600), (none, 0)]),
   ("US", [(some 100, 15), (some 300, 8), (none, 0)]),
   ("DEFAULT", [(some 200, 25), (none, 0)])]

/-- Class attribute `TAX_RATE`. -/
def TAX_RATE : List (String × ℚ) :=
  [("TH", 7/100), ("JP", 10/100), ("US", 8/100), ("DEFAULT", 5/100)]

/-- Class attribute `MEMBERSHIP_RATE`. -/
def MEMBERSHIP_RATE : List (String × ℚ) :=
  [("gold", 3/100), ("platinum", 5/100)]

/-- Instance attribute `self._coupon_rate` built in `__init__`. -/
def coupon_rate : List (String × ℚ) :=
  [("WELCOME10", 10/100), ("VIP20", 20/100), ("STUDENT5", 5/100)]

/-- Per-item checks of the `for it in inv.items` loop of `_validate`, in
source order: sku, qty, price, category. -/
def itemProblems (it : LineItem) : List String :=
  (if it.sku = "" then ["Item sku is missing"] else []) ++
  (if it.qty ≤ 0 then ["Invalid qty for " ++ it.sku] else []) ++
  (if it.unit_price < 0 then ["Invalid price for " ++ it.sku] else []) ++
  (if VALID_CATEGORIES.contains it.category then [] else ["Unknown category for " ++ it.sku])

/-- Method `InvoiceService._validate`.  The `inv is None` branch cannot arise
in the embedding, where an `Invoice` value is always present. -/
def validate (inv : Invoice) : List String :=
  (if inv.invoice_id = "" then ["Missing invoice_id"] else []) ++
  (if inv.customer_id = "" then ["Missing customer_id"] else []) ++
  (if inv.items = [] then ["Invoice must contain items"] else []) ++
  inv.items.flatMap itemProblems

/-- Method `InvoiceService._subtotal`. -/
def subtotal (items : List LineItem) : ℚ :=
  (items.map (fun it => it.unit_price * (it.qty : ℚ))).sum

/-- Method `InvoiceService._fragile_fee`. -/
def fragile_fee (items : List LineItem) : ℚ :=
  ((items.filter (fun it => it.fragile)).map
    (fun it => FRAGILE_FEE_PER_ITEM * (it.qty : ℚ))).sum

/-- Python's comparison `subtotal < limit` where `limit` may be `inf`. -/
def ltLimit (s : ℚ) : Option ℚ → Bool
  | none => true
  | some b => decide (s < b)

/-- The lookup `self.SHIPPING_RULES.get(country, self.SHIPPING_RULES["DEFAULT"])`. -/
def shippingRulesFor (country : String) : List (Option ℚ × ℚ) :=
  (SHIPPING_RULES.lookup country).getD
    ((SHIPPING_RULES.lookup "DEFAULT").getD [])

/-- The `for limit, fee in rules` loop of `_shipping`, including the trailing
`return 0.0`. -/
def shipScan (s : ℚ) : List (Option ℚ × ℚ) → ℚ
  | [] => 0
  | (limit, fee) :: rest => if ltLimit s limit then fee else shipScan s rest

/-- Method `InvoiceService._shipping`. -/
def shipping (country : String) (sub : ℚ) : ℚ :=
  shipScan sub (shippingRulesFor country)

/-- The rate picked by `_tax`: `self.TAX_RATE.get(country, self.TAX_RATE["DEFAULT"])`. -/
def taxRateOf (country : String) : ℚ :=
  (TAX_RATE.lookup country).getD ((TAX_RATE.lookup "DEFAULT").getD 0)

/-- Method `InvoiceService._tax`. -/
def tax (country : String) (taxable : ℚ) : ℚ :=
  taxable * taxRateOf country

/-- Python truthiness of `rate: Optional[float]` tested by `if rate:` in
`_membership_discount`: false for `None` and for `0.0`. -/
def truthyRate : Option ℚ → Bool
  | none => false
  | some r => decide (r ≠ 0)

/-- Method `InvoiceService._membership_discount`. -/
def membership_discount (membership : String) (sub : ℚ) : ℚ :=
  let rate := MEMBERSHIP_RATE.lookup membership
  if truthyRate rate then sub * rate.getD 0
  else if sub > 3000 then 20
  else 0

/-- Python's `str.strip()` (used on the coupon code), modelled executably by
dropping whitespace characters from both ends of the character list. -/
def pyStrip (s : String) : String :=
  ⟨((s.toList.dropWhile Char.isWhitespace).reverse.dropWhile Char.isWhitespace).reverse⟩

/-- Method `InvoiceService._coupon_discount`; returns the discount together
with the updated warnings list.  Python's `if not coupon` is true exactly for
`None` and for the empty string. -/
def coupon_discount (coupon : Option String) (sub : ℚ) (warnings : List String) :
    ℚ × List String :=
  match coupon with
  | none => (0, warnings)
  | some c =>
    if c = "" then (0, warnings)
    else
      match coupon_rate.lookup (pyStrip c) with
      | some r => (sub * r, warnings)
      | none => (0, warnings ++ ["Unknown coupon"])

/-- Method `InvoiceService.compute_total`. -/
def compute_total (inv : Invoice) : Except String (ℚ × List String) :=
  let problems := validate inv
  if problems = [] then
    let warnings : List String := []
    let sub := subtotal inv.items
    let frag := fragile_fee inv.items
    let ship := shipping inv.country sub
    let md := membership_discount inv.membership sub
    let cw := coupon_discount inv.coupon sub warnings
    let discount := md + cw.1
    let taxable := sub - discount
    let t := tax inv.country taxable
    let total := max (sub + ship + frag + t - discount) 0
    let warnings :=
      if sub > 10000 ∧ MEMBERSHIP_RATE.lookup inv.membership = none
      then cw.2 ++ ["Consider membership upgrade"] else cw.2
    .ok (total, warnings)
  else
    .error (String.intercalate "; " problems)

/-- Derived quantity: the code's `discount` local (membership plus coupon
discount, both against the original subtotal). -/
def totalDiscount (inv : Invoice) : ℚ :=
  membership_discount inv.membership (subtotal inv.items) +
  (coupon_discount inv.coupon (subtotal inv.items) []).1

/-- Derived quantity: the code's `total` local on the success path. -/
def totalFormula (inv : Invoice) : ℚ :=
  max (subtotal inv.items + shipping inv.country (subtotal inv.items) +
       fragile_fee inv.items +
       tax inv.country (subtotal inv.items - totalDiscount inv) - totalDiscount inv) 0

/-- Derived quantity: the warnings list returned on the success path. -/
def warningsFormula (inv : Invoice) : List String :=
  (coupon_discount inv.coupon (subtotal inv.items) []).2 ++
  (if subtotal inv.items > 10000 ∧ MEMBERSHIP_RATE.lookup inv.membership = none
   then ["Consider membership upgrade"] else [])

/-- Specification-side restatement of the shipping selection rule (for the
refinement claim C4): the fee of the first pair whose bound strictly exceeds
the subtotal, read off with `List.find?`. -/
def shippingSpec (country : String) (s : ℚ) : ℚ :=
  (((shippingRulesFor country).find? (fun pr => ltLimit s pr.1)).map Prod.snd).getD 0

/-- The effective coupon rate: `0` for an absent, empty or unknown coupon. -/
def couponRateOf (co : Option String) : ℚ :=
  match co with
  | none => 0
  | some c => if c = "" then 0 else (coupon_rate.lookup (pyStrip c)).getD 0

/-- Example input: the spec's scenario 1 invoice (US, one book at 50 × 2). -/
def usBookInvoice : Invoice :=
  ⟨"I1", "C1", "US", "", none, [⟨"S1", "book", 50, 2, false⟩]⟩

/-- Example input: an invalid invoice (empty customer id, item with empty
sku, non-positive qty, negative price and unknown category). -/
def badInvoice : Invoice :=
  ⟨"I1", "", "US", "", none, [⟨"", "gadget", -3, 0, false⟩]⟩

/-- Example input: a large invoice with an unknown coupon, triggering both
warnings. -/
def bigInvoice : Invoice :=
  ⟨"I9", "C9", "US", "", some "XYZ", [⟨"S9", "book", 12000, 1, false⟩]⟩

/-- Example input: the scenario 1 invoice with qty raised to 3. -/
def usBook3Invoice : Invoice :=
  ⟨"I1", "C1", "US", "", none, [⟨"S1", "book", 50, 3, false⟩]⟩

/-! Helper lemmas shared by the claim theorems. -/

lemma lookup_cons_if {α β : Type} [BEq α] [LawfulBEq α] [DecidableEq α]
    (a k : α) (v : β) (l : List (α × β)) :
    List.lookup a ((k, v) :: l) = if a = k then some v else List.lookup a l := by
  by_cases h : a = k
  · simp [List.lookup, h]
  · simp [List.lookup, beq_eq_false_iff_ne.mpr h, h]

lemma shipScan_eq_find? (s : ℚ) (l : List (Option ℚ × ℚ)) :
    shipScan s l = ((l.find? (fun pr => ltLimit s pr.1)).map Prod.snd).getD 0 := by
  induction l with
  | nil => simp [shipScan]
  | cons hd tl ih =>
    obtain ⟨limit, fee⟩ := hd
    by_cases h : ltLimit s limit <;> simp [shipScan, List.find?, h, ih]

lemma taxRateOf_bounds (c : String) : 0 ≤ taxRateOf c ∧ taxRateOf c ≤ 1 := by
  unfold taxRateOf TAX_RATE
  by_cases h1 : c = "TH" <;> by_cases h2 : c = "JP" <;> by_cases h3 : c = "US" <;>
    by_cases h4 : c = "DEFAULT" <;>
    simp [lookup_cons_if, h1, h2, h3, h4] <;> norm_num

lemma membership_rate_cases (m : String) (r : ℚ)
    (h : MEMBERSHIP_RATE.lookup m = some r) : r = 3/100 ∨ r = 5/100 := by
  unfold MEMBERSHIP_RATE at h
  rw [lookup_cons_if, lookup_cons_if] at h
  split_ifs at h
  · exact Or.inl (Option.some.inj h).symm
  · exact Or.inr (Option.some.inj h).symm
  · exact absurd h (by simp [List.lookup])

lemma coupon_rate_cases (c : String) (r : ℚ)
    (h : coupon_rate.lookup c = some r) : r = 10/100 ∨ r = 20/100 ∨ r = 5/100 := by
  unfold coupon_rate at h
  rw [lookup_cons_if, lookup_cons_if, lookup_cons_if] at h
  split_ifs at h
  · exact Or.inl (Option.some.inj h).symm
  · exact Or.inr (Or.inl (Option.some.inj h).symm)
  · exact Or.inr (Or.inr (Option.some.inj h).symm)
  · exact absurd h (by simp [List.lookup])

lemma coupon_discount_fst (co : Option String) (s : ℚ) (w : List String) :
    (coupon_discount co s w).1 = s * couponRateOf co := by
  unfold coupon_discount couponRateOf
  cases co with
  | none => simp
  | some c =>
    by_cases hc : c = ""
    · simp [hc]
    · simp only [if_neg hc]
      cases hlk : coupon_rate.lookup (pyStrip c) <;> simp [hlk]

lemma couponRateOf_bounds (co : Option String) :
    0 ≤ couponRateOf co ∧ couponRateOf co ≤ 20/100 := by
  unfold couponRateOf
  cases co with
  | none => norm_num
  | some c =>
    by_cases hc : c = ""
    · simp [hc]; norm_num
    · simp only [if_neg hc]
      cases hlk : coupon_rate.lookup (pyStrip c) with
      | none => simp; norm_num
      | some r =>
        rcases coupon_rate_cases _ _ hlk with h | h | h <;> rw [h] <;> simp <;> norm_num

lemma membership_discount_linear (m : String) (s1 s2 : ℚ) (hs : s1 ≤ s2)
    (hflat : truthyRate (MEMBERSHIP_RATE.lookup m) = true ∨ s2 ≤ 3000 ∨ 3000 < s1) :
    ∃ r : ℚ, 0 ≤ r ∧ r ≤ 5/100 ∧
      membership_discount m s2 - membership_discount m s1 = r * (s2 - s1) := by
  by_cases htr : truthyRate (MEMBERSHIP_RATE.lookup m) = true
  · cases hlk : MEMBERSHIP_RATE.lookup m with
    | none => rw [hlk] at htr; simp [truthyRate] at htr
    | some r0 =>
      have hmd : ∀ s : ℚ, membership_discount m s = s * r0 := by
        intro s
        rw [hlk] at htr
        unfold membership_discount
        rw [hlk]
        simp [htr]
      refine ⟨r0, ?_, ?_, ?_⟩
      · rcases membership_rate_cases m r0 hlk with h | h <;> rw [h] <;> norm_num
      · rcases membership_rate_cases m r0 hlk with h | h <;> rw [h] <;> norm_num
      · rw [hmd, hmd]; ring
  · have hmd : ∀ s : ℚ, membership_discount m s = if s > 3000 then 20 else 0 := by
      intro s
      unfold membership_discount
      rw [if_neg htr]
    rcases hflat with h | h | h
    · exact absurd h htr
    · refine ⟨0, le_refl 0, by norm_num, ?_⟩
      rw [hmd, hmd, if_neg (by simp only [gt_iff_lt, not_lt]; linarith),
        if_neg (by simp only [gt_iff_lt, not_lt]; linarith)]
      ring
    · refine ⟨0, le_refl 0, by norm_num, ?_⟩
      rw [hmd, hmd, if_pos (by simp only [gt_iff_lt]; linarith),
        if_pos (by simp only [gt_iff_lt]; linarith)]
      ring

lemma ite_append_right (P : Prop) [Decidable P] (l u : List String) :
    (if P then l ++ u else l) = l ++ (if P then u else []) := by
  split <;> simp

lemma compute_total_eq_ok (inv : Invoice) (hv : validate inv = []) :
    compute_total inv = .ok (totalFormula inv, warningsFormula inv) := by
  unfold compute_total totalFormula warningsFormula totalDiscount
  rw [hv]
  simp [ite_append_right]

lemma compute_total_eq_error (inv : Invoice) (hv : validate inv ≠ []) :
    compute_total inv = .error (String.intercalate "; " (validate inv)) := by
  unfold compute_total
  rw [if_neg hv]

lemma validate_ok_item (inv : Invoice) (h : validate inv = []) :
    ∀ it ∈ inv.items, 0 < it.qty ∧ 0 ≤ it.unit_price := by
  intro it hmem
  unfold validate at h
  rw [List.append_eq_nil, List.append_eq_nil, List.append_eq_nil] at h
  obtain ⟨⟨⟨-, -⟩, -⟩, hfm⟩ := h
  rw [List.flatMap_eq_nil_iff] at hfm
  have hit := hfm it hmem
  unfold itemProblems at hit
  rw [List.append_eq_nil, List.append_eq_nil, List.append_eq_nil] at hit
  obtain ⟨⟨⟨-, hq⟩, hp⟩, -⟩ := hit
  constructor
  · by_contra hc
    rw [if_pos (by omega)] at hq
    simp at hq
  · by_contra hc
    rw [if_pos (by linarith)] at hp
    simp at hp

lemma subtotal_append (l1 l2 : List LineItem) (it : LineItem) :
    subtotal (l1 ++ it :: l2) =
      subtotal l1 + it.unit_price * (it.qty : ℚ) + subtotal l2 := by
  unfold subtotal
  rw [List.map_append, List.sum_append, List.map_cons, List.sum_cons]
  ring

lemma fragile_fee_append (l1 l2 : List LineItem) (it : LineItem) :
    fragile_fee (l1 ++ it :: l2) =
      fragile_fee l1 + (if it.fragile then FRAGILE_FEE_PER_ITEM * (it.qty : ℚ) else 0) +
      fragile_fee l2 := by
  unfold fragile_fee
  rw [List.filter_append, List.filter_cons]
  cases hf : it.fragile <;>
    simp [List.map_append, List.sum_append] <;> ring

lemma total_core_mono (ctry m : String) (co : Option String) (f1 f2 s1 s2 : ℚ)
    (hs : s1 ≤ s2) (hf : f1 ≤ f2)
    (hship : shipping ctry s1 = shipping ctry s2)
    (hflat : truthyRate (MEMBERSHIP_RATE.lookup m) = true ∨ s2 ≤ 3000 ∨ 3000 < s1) :
    max (s1 + shipping ctry s1 + f1 +
      tax ctry (s1 - (membership_discount m s1 + (coupon_discount co s1 []).1)) -
      (membership_discount m s1 + (coupon_discount co s1 []).1)) 0 ≤
    max (s2 + shipping ctry s2 + f2 +
      tax ctry (s2 - (membership_discount m s2 + (coupon_discount co s2 []).1)) -
      (membership_discount m s2 + (coupon_discount co s2 []).1)) 0 := by
  obtain ⟨r, hr0, hr1, hrd⟩ := membership_discount_linear m s1 s2 hs hflat
  obtain ⟨hcr0, hcr1⟩ := couponRateOf_bounds co
  obtain ⟨ht0, ht1⟩ := taxRateOf_bounds ctry
  rw [coupon_discount_fst, coupon_discount_fst, hship]
  unfold tax
  apply max_le_max _ le_rfl
  have hmd2 : membership_discount m s2 =
      membership_discount m s1 + r * (s2 - s1) := by linarith
  rw [hmd2]
  have key : (s2 + shipping ctry s2 + f2 +
        (s2 - (membership_discount m s1 + r * (s2 - s1) + s2 * couponRateOf co)) *
          taxRateOf ctry -
        (membership_discount m s1 + r * (s2 - s1) + s2 * couponRateOf co)) -
      (s1 + shipping ctry s2 + f1 +
        (s1 - (membership_discount m s1 + s1 * couponRateOf co)) * taxRateOf ctry -
        (membership_discount m s1 + s1 * couponRateOf co)) =
      (f2 - f1) + (s2 - s1) * (1 + taxRateOf ctry) * (1 - (r + couponRateOf co)) := by
    ring
  have hprod : 0 ≤ (s2 - s1) * (1 + taxRateOf ctry) * (1 - (r + couponRateOf co)) := by
    apply mul_nonneg (mul_nonneg (by linarith) (by linarith)) (by linarith)
  linarith

lemma find_ltLimit_isSome (s : ℚ) (l : List (Option ℚ × ℚ)) (fee : ℚ)
    (h : ((none : Option ℚ), fee) ∈ l) :
    (l.find? (fun pr => ltLimit s pr.1)).isSome = true := by
  induction l with
  | nil => simp at h
  | cons hd tl ih =>
    cases hp : ltLimit s hd.1 with
    | true => simp [List.find?_cons, hp]
    | false =>
      simp only [List.find?_cons, hp]
      rcases List.mem_cons.mp h with he | hm
      · rw [← he] at hp
        simp [ltLimit] at hp
      · exact ih hm

lemma shipScan_finds (s : ℚ) (l : List (Option ℚ × ℚ)) (fee : ℚ)
    (h : ((none : Option ℚ), fee) ∈ l) :
    ∃ pr ∈ l, ltLimit s pr.1 = true ∧ shipScan s l = pr.2 := by
  induction l with
  | nil => simp at h
  | cons hd tl ih =>
    obtain ⟨limit, f⟩ := hd
    cases hp : ltLimit s limit with
    | true =>
      exact ⟨(limit, f), List.mem_cons_self _ tl, hp, by simp [shipScan, hp]⟩
    | false =>
      rcases List.mem_cons.mp h with he | hm
      · injection he with h1 h2
        subst h1
        simp [ltLimit] at hp
      · obtain ⟨pr, hmem, hlt, heq⟩ := ih hm
        exact ⟨pr, List.mem_cons_of_mem _ hmem, hlt, by simp [shipScan, hp, heq]⟩

lemma shippingRulesFor_has_inf (c : String) :
    ∃ fee, ((none : Option ℚ), fee) ∈ shippingRulesFor c := by
  unfold shippingRulesFor SHIPPING_RULES
  by_cases h1 : c = "TH" <;> by_cases h2 : c = "JP" <;> by_cases h3 : c = "US" <;>
    by_cases h4 : c = "DEFAULT" <;>
    simp [lookup_cons_if, h1, h2, h3, h4]

lemma usBookInvoice_eval : compute_total usBookInvoice = .ok (116, []) := by
  simp +decide [usBookInvoice, compute_total, validate, itemProblems, subtotal, fragile_fee, shipping,
    shippingRulesFor, shipScan, ltLimit, tax, taxRateOf, membership_discount, truthyRate,
    coupon_discount, pyStrip, SHIPPING_RULES, TAX_RATE, MEMBERSHIP_RATE, coupon_rate,
    VALID_CATEGORIES, List.lookup, max_def]
  norm_num

lemma bigInvoice_eval :
    compute_total bigInvoice =
      .ok (64692/5, ["Unknown coupon", "Consider membership upgrade"]) := by
  simp +decide [bigInvoice, compute_total, validate, itemProblems, subtotal, fragile_fee, shipping,
    shippingRulesFor, shipScan, ltLimit, tax, taxRateOf, membership_discount, truthyRate,
    coupon_discount, pyStrip, SHIPPING_RULES, TAX_RATE, MEMBERSHIP_RATE, coupon_rate,
    VALID_CATEGORIES, List.lookup, max_def]
  norm_num

lemma usBook3Invoice_eval : compute_total usBook3Invoice = .ok (170, []) := by
  simp +decide [usBook3Invoice, compute_total, validate, itemProblems, subtotal, fragile_fee, shipping,
    shippingRulesFor, shipScan, ltLimit, tax, taxRateOf, membership_discount, truthyRate,
    coupon_discount, pyStrip, SHIPPING_RULES, TAX_RATE, MEMBERSHIP_RATE, coupon_rate,
    VALID_CATEGORIES, List.lookup, max_def]
  norm_num

lemma subtotal_append_mk (l1 l2 : List LineItem) (sk cat : String) (p : ℚ) (q : ℤ)
    (fr : Bool) :
    subtotal (l1 ++ ⟨sk, cat, p, q, fr⟩ :: l2) =
      subtotal l1 + p * (q : ℚ) + subtotal l2 :=
  subtotal_append l1 l2 _

lemma fragile_fee_append_mk (l1 l2 : List LineItem) (sk cat : String) (p : ℚ) (q : ℤ)
    (fr : Bool) :
    fragile_fee (l1 ++ ⟨sk, cat, p, q, fr⟩ :: l2) =
      fragile_fee l1 + (if fr then FRAGILE_FEE_PER_ITEM * (q : ℚ) else 0) +
      fragile_fee l2 :=
  fragile_fee_append l1 l2 _

/-! The claim theorems. -/

/-- C5: the membership discount follows exactly one of three exclusive paths:
a table entry (gold 3%, platinum 5%) gives `subtotal * rate`; otherwise a
subtotal above 3000 gives the flat 20.0; otherwise 0.0. -/
theorem c5_membership_discount_paths (m : String) (s : ℚ) :
    membership_discount m s =
      if m = "gold" then s * (3/100)
      else if m = "platinum" then s * (5/100)
      else if s > 3000 then 20 else 0 := by
  unfold membership_discount MEMBERSHIP_RATE
  by_cases h1 : m = "gold" <;> by_cases h2 : m = "platinum" <;>
    simp [lookup_cons_if, h1, h2, truthyRate] <;> norm_num

/-- C7: for country "US", one non-fragile book item with unit price 50 and
qty 2, no recognized membership and no coupon, `compute_total` returns total
116 (subtotal 100, shipping 8 since 100 is not strictly below the first US
bound 100, tax 8, no discounts) with an empty warnings list. -/
theorem c7_scenario_us_book :
    compute_total usBookInvoice = .ok (116, []) :=
  usBookInvoice_eval

/-- C4: the shipping fee scans the country's table (falling back to the
DEFAULT table for an unknown country) and returns the fee of the first pair
whose bound strictly exceeds the subtotal; a subtotal exactly equal to a
bound falls through to the next pair (US subtotal 100 pays 8, not 15). -/
theorem c4_shipping_selection :
    (∀ c s, shipping c s = shippingSpec c s) ∧
    (∀ c, SHIPPING_RULES.lookup c = none →
      shippingRulesFor c = shippingRulesFor "DEFAULT") ∧
    shipping "US" 100 = 8 ∧ shipping "US" 99 = 15 := by
  refine ⟨fun c s => shipScan_eq_find? s (shippingRulesFor c), fun c h => ?_, ?_, ?_⟩
  · unfold shippingRulesFor
    rw [h]
    simp +decide [SHIPPING_RULES, lookup_cons_if]
  · simp +decide [shipping, shippingRulesFor, SHIPPING_RULES, shipScan, ltLimit,
      lookup_cons_if]
  · simp +decide [shipping, shippingRulesFor, SHIPPING_RULES, shipScan, ltLimit,
      lookup_cons_if]

/-- C4 witness: the general selection rule and the DEFAULT fallback applied
to the unconfigured country "FR". -/
theorem c4_shipping_selection_witness :
    shipping "FR" 250 = shippingSpec "FR" 250 ∧
    shippingRulesFor "FR" = shippingRulesFor "DEFAULT" :=
  ⟨c4_shipping_selection.1 "FR" 250,
   c4_shipping_selection.2.1 "FR" (by simp +decide [SHIPPING_RULES, lookup_cons_if])⟩

/-- C10: every configured shipping table ends with an infinite bound, the
in-loop scan always finds a pair for any country and subtotal, and the fee
returned comes from a pair of the table whose bound test succeeded — the
trailing fallback `return 0.0` after the loop is unreachable. -/
theorem c10_shipping_lookup_total :
    (∀ key rules, SHIPPING_RULES.lookup key = some rules →
      ∃ fee, rules.getLast? = some (none, fee)) ∧
    (∀ c s, ((shippingRulesFor c).find? (fun pr => ltLimit s pr.1)).isSome = true) ∧
    (∀ c s, ∃ pr ∈ shippingRulesFor c, ltLimit s pr.1 = true ∧ shipping c s = pr.2) := by
  refine ⟨?_, ?_, ?_⟩
  · intro key rules h
    unfold SHIPPING_RULES at h
    rw [lookup_cons_if, lookup_cons_if, lookup_cons_if, lookup_cons_if] at h
    split_ifs at h
    · obtain rfl := Option.some.inj h
      exact ⟨0, rfl⟩
    · obtain rfl := Option.some.inj h
      exact ⟨0, rfl⟩
    · obtain rfl := Option.some.inj h
      exact ⟨0, rfl⟩
    · obtain rfl := Option.some.inj h
      exact ⟨0, rfl⟩
    · exact absurd h (by simp [List.lookup])
  · intro c s
    obtain ⟨fee, hmem⟩ := shippingRulesFor_has_inf c
    exact find_ltLimit_isSome s _ fee hmem
  · intro c s
    obtain ⟨fee, hmem⟩ := shippingRulesFor_has_inf c
    exact shipScan_finds s _ fee hmem

/-- C10 witness: the TH table ends with the infinite bound, and the scan
finds a pair there for subtotal 700. -/
theorem c10_shipping_lookup_total_witness :
    (∃ fee, [((some 500 : Option ℚ), (60 : ℚ)), (none, 0)].getLast? = some (none, fee)) ∧
    ((shippingRulesFor "TH").find? (fun pr => ltLimit 700 pr.1)).isSome = true :=
  ⟨c10_shipping_lookup_total.1 "TH" _ (by simp +decide [SHIPPING_RULES, lookup_cons_if]),
   c10_shipping_lookup_total.2.1 "TH" 700⟩

/-- C1: `compute_total` fails iff validation finds at least one problem; the
error message is the semicolon-joined list of all detected problems (not just
the first), collected in the order: missing invoice_id, missing customer_id,
missing items, then per-item problems iterating items in sequence, each
item's problems in field order sku, qty, price, category; on failure the
result carries only the error value, no priced result. -/
theorem c1_validation_failure (inv : Invoice) :
    ((∃ e, compute_total inv = .error e) ↔ validate inv ≠ []) ∧
    (validate inv ≠ [] →
      compute_total inv = .error (String.intercalate "; " (validate inv))) ∧
    validate inv =
      (if inv.invoice_id = "" then ["Missing invoice_id"] else []) ++
      (if inv.customer_id = "" then ["Missing customer_id"] else []) ++
      (if inv.items = [] then ["Invoice must contain items"] else []) ++
      inv.items.flatMap (fun it =>
        (if it.sku = "" then ["Item sku is missing"] else []) ++
        (if it.qty ≤ 0 then ["Invalid qty for " ++ it.sku] else []) ++
        (if it.unit_price < 0 then ["Invalid price for " ++ it.sku] else []) ++
        (if VALID_CATEGORIES.contains it.category then []
         else ["Unknown category for " ++ it.sku])) := by
  refine ⟨⟨?_, ?_⟩, fun hv => compute_total_eq_error inv hv, rfl⟩
  · rintro ⟨e, he⟩ hv
    rw [compute_total_eq_ok inv hv] at he
    exact Except.noConfusion he
  · intro hv
    exact ⟨_, compute_total_eq_error inv hv⟩

/-- C1 witness: an invoice with an empty customer id and a fully invalid
item fails with the joined message of all five problems. -/
theorem c1_validation_failure_witness :
    compute_total badInvoice =
      .error (String.intercalate "; " (validate badInvoice)) :=
  (c1_validation_failure badInvoice).2.1 (by decide)

/-- C3: every invoice that passes validation produces a successful result
whose total is max(subtotal + shipping + fragile_fee + tax − total_discount,
0.0) — shipping and the fragile fee enter neither the taxable amount nor the
discount — and that total is non-negative. -/
theorem c3_total_formula_nonneg (inv : Invoice) (h : validate inv = []) :
    compute_total inv =
      .ok (max (subtotal inv.items + shipping inv.country (subtotal inv.items) +
          fragile_fee inv.items +
          tax inv.country (subtotal inv.items - totalDiscount inv) -
          totalDiscount inv) 0, warningsFormula inv) ∧
    ∀ t w, compute_total inv = .ok (t, w) → 0 ≤ t := by
  refine ⟨compute_total_eq_ok inv h, ?_⟩
  intro t w hok
  rw [compute_total_eq_ok inv h] at hok
  have h2 := Except.ok.inj hok
  rw [Prod.mk.injEq] at h2
  rw [← h2.1]
  unfold totalFormula
  exact le_max_right _ _

/-- C3 witness: non-negativity of the concrete total of the scenario 1
invoice. -/
theorem c3_total_formula_nonneg_witness : (0 : ℚ) ≤ 116 :=
  (c3_total_formula_nonneg usBookInvoice (by decide)).2 116 [] usBookInvoice_eval

/-- C6: an absent or empty coupon gives discount 0 with no warning; any other
coupon is whitespace-trimmed and matched case-sensitively against the coupon
table, yielding discount subtotal × rate on a hit and discount 0 plus one
"Unknown coupon" warning on a miss; " WELCOME10 " behaves exactly like
"WELCOME10" while "welcome10" is unknown. -/
theorem c6_coupon_handling :
    (∀ s w, coupon_discount none s w = (0, w)) ∧
    (∀ s w, coupon_discount (some "") s w = (0, w)) ∧
    (∀ s w c r, c ≠ "" → coupon_rate.lookup (pyStrip c) = some r →
      coupon_discount (some c) s w = (s * r, w)) ∧
    (∀ s w c, c ≠ "" → coupon_rate.lookup (pyStrip c) = none →
      coupon_discount (some c) s w = (0, w ++ ["Unknown coupon"])) ∧
    (∀ s w, coupon_discount (some " WELCOME10 ") s w =
      coupon_discount (some "WELCOME10") s w) ∧
    (∀ s w, coupon_discount (some "welcome10") s w = (0, w ++ ["Unknown coupon"])) := by
  refine ⟨fun s w => rfl, fun s w => rfl, ?_, ?_, ?_, ?_⟩
  · intro s w c r hne hlk
    simp [coupon_discount, hne, hlk]
  · intro s w c hne hlk
    simp [coupon_discount, hne, hlk]
  · intro s w
    have h1 : pyStrip " WELCOME10 " = "WELCOME10" := by decide
    have h2 : pyStrip "WELCOME10" = "WELCOME10" := by decide
    simp +decide [coupon_discount, h1, h2, coupon_rate, lookup_cons_if]
  · intro s w
    have h1 : pyStrip "welcome10" = "welcome10" := by decide
    have h2 : coupon_rate.lookup "welcome10" = none := by decide
    simp +decide [coupon_discount, h1, h2]

/-- C6 witness: each coupon path at concrete inputs. -/
theorem c6_coupon_handling_witness :
    coupon_discount none 100 [] = (0, []) ∧
    coupon_discount (some "") 100 [] = (0, []) ∧
    coupon_discount (some "VIP20") 100 [] = (100 * (20/100), []) ∧
    coupon_discount (some "XYZ") 100 [] = (0, [] ++ ["Unknown coupon"]) ∧
    coupon_discount (some " WELCOME10 ") 100 [] =
      coupon_discount (some "WELCOME10") 100 [] ∧
    coupon_discount (some "welcome10") 100 [] = (0, [] ++ ["Unknown coupon"]) :=
  ⟨c6_coupon_handling.1 100 [],
   c6_coupon_handling.2.1 100 [],
   c6_coupon_handling.2.2.1 100 [] "VIP20" (20/100) (by decide) (by rfl),
   c6_coupon_handling.2.2.2.1 100 [] "XYZ" (by decide) (by decide),
   c6_coupon_handling.2.2.2.2.1 100 [],
   c6_coupon_handling.2.2.2.2.2 100 []⟩

/-- C9: a coupon string that is non-empty but all whitespace is not caught by
the emptiness check (which precedes trimming): it trims to "", misses the
table, and yields discount 0 with an "Unknown coupon" warning — unlike an
absent or empty coupon, which yields discount 0 with no warning; on any
valid invoice carrying such a coupon the returned warnings contain
"Unknown coupon". -/
theorem c9_whitespace_coupon (c : String) (h1 : c ≠ "") (h2 : pyStrip c = "") :
    (∀ s w, coupon_discount (some c) s w = (0, w ++ ["Unknown coupon"])) ∧
    (∀ s w, coupon_discount none s w = (0, w)) ∧
    (∀ s w, coupon_discount (some "") s w = (0, w)) ∧
    (∀ inv t w, validate inv = [] → inv.coupon = some c →
      compute_total inv = .ok (t, w) → "Unknown coupon" ∈ w) := by
  have hlk : coupon_rate.lookup "" = none := by decide
  have hmain : ∀ s w, coupon_discount (some c) s w = (0, w ++ ["Unknown coupon"]) := by
    intro s w
    simp [coupon_discount, h1, h2, hlk]
  refine ⟨hmain, fun s w => rfl, fun s w => rfl, ?_⟩
  intro inv t w hv hco hok
  rw [compute_total_eq_ok inv hv] at hok
  have h3 := Except.ok.inj hok
  rw [Prod.mk.injEq] at h3
  rw [← h3.2]
  unfold warningsFormula
  rw [hco, hmain]
  simp

/-- C9 witness: the all-whitespace coupon " " at concrete inputs. -/
theorem c9_whitespace_coupon_witness :
    coupon_discount (some " ") 100 ["w"] = (0, ["w"] ++ ["Unknown coupon"]) :=
  (c9_whitespace_coupon " " (by decide) (by decide)).1 100 ["w"]

/-- C8: on every successful call the returned warnings are exactly the coupon
warnings followed by the "Consider membership upgrade" warning, the latter
present iff subtotal > 10000 and the membership tier has no rate-table entry;
the two warnings are independent, the coupon warning comes first, and the
result is always a list (possibly empty), never an absent value. -/
theorem c8_upgrade_warning (inv : Invoice) (t : ℚ) (w : List String)
    (h : compute_total inv = .ok (t, w)) :
    w = (coupon_discount inv.coupon (subtotal inv.items) []).2 ++
        (if subtotal inv.items > 10000 ∧ MEMBERSHIP_RATE.lookup inv.membership = none
         then ["Consider membership upgrade"] else []) := by
  by_cases hv : validate inv = []
  · rw [compute_total_eq_ok inv hv] at h
    have h2 := Except.ok.inj h
    rw [Prod.mk.injEq] at h2
    exact h2.2.symm
  · rw [compute_total_eq_error inv hv] at h
    exact Except.noConfusion h

/-- C8 witness: the big invoice with an unknown coupon produces both
warnings, coupon warning first. -/
theorem c8_upgrade_warning_witness :
    ["Unknown coupon", "Consider membership upgrade"] =
      (coupon_discount bigInvoice.coupon (subtotal bigInvoice.items) []).2 ++
      (if subtotal bigInvoice.items > 10000 ∧
          MEMBERSHIP_RATE.lookup bigInvoice.membership = none
       then ["Consider membership upgrade"] else []) :=
  c8_upgrade_warning bigInvoice (64692/5)
    ["Unknown coupon", "Consider membership upgrade"] bigInvoice_eval

/-- C2 counterexample: the claim as frozen is false — the total is not
monotone in a single item's unit price or qty, because the shipping fee
drops at a table bound.  On valid TH invoices, raising the price 499 → 500
drops the total 593.93 → 535, and raising the qty 9 → 10 at price 50 drops
the total 541.5 → 535. -/
theorem c2_total_monotone_counterexample :
    ((499 : ℚ) ≤ 500 ∧
      validate ⟨"I1", "C1", "TH", "", none, [⟨"S1", "book", 499, 1, false⟩]⟩ = [] ∧
      validate ⟨"I1", "C1", "TH", "", none, [⟨"S1", "book", 500, 1, false⟩]⟩ = [] ∧
      compute_total ⟨"I1", "C1", "TH", "", none, [⟨"S1", "book", 499, 1, false⟩]⟩ =
        .ok (59393/100, []) ∧
      compute_total ⟨"I1", "C1", "TH", "", none, [⟨"S1", "book", 500, 1, false⟩]⟩ =
        .ok (535, []) ∧
      ¬ ((59393 : ℚ)/100 ≤ 535)) ∧
    ((9 : ℤ) ≤ 10 ∧
      validate ⟨"I1", "C1", "TH", "", none, [⟨"S1", "book", 50, 9, false⟩]⟩ = [] ∧
      validate ⟨"I1", "C1", "TH", "", none, [⟨"S1", "book", 50, 10, false⟩]⟩ = [] ∧
      compute_total ⟨"I1", "C1", "TH", "", none, [⟨"S1", "book", 50, 9, false⟩]⟩ =
        .ok (1083/2, []) ∧
      compute_total ⟨"I1", "C1", "TH", "", none, [⟨"S1", "book", 50, 10, false⟩]⟩ =
        .ok (535, []) ∧
      ¬ ((1083 : ℚ)/2 ≤ 535)) := by
  refine ⟨⟨by norm_num, by decide, by decide, ?_, ?_, by norm_num⟩,
          ⟨by norm_num, by decide, by decide, ?_, ?_, by norm_num⟩⟩ <;>
    (simp +decide [compute_total, validate, itemProblems, subtotal, fragile_fee, shipping,
    shippingRulesFor, shipScan, ltLimit, tax, taxRateOf, membership_discount, truthyRate,
    coupon_discount, pyStrip, SHIPPING_RULES, TAX_RATE, MEMBERSHIP_RATE, coupon_rate,
    VALID_CATEGORIES, List.lookup, max_def]; norm_num)

/-- C2 (amended): for two valid invoices identical except that one item's
unit price and qty are raised (p1 ≤ p2, q1 ≤ q2), the total returned by
`compute_total` is non-decreasing, provided the shipping fee is the same at
the two subtotals and the change does not cross the flat membership-discount
threshold at subtotal 3000 (the membership tier has a truthy rate entry, or
both subtotals lie on the same side of 3000); without those provisos the
total can decrease at shipping-table bounds and at the flat-discount
threshold. -/
theorem c2_total_monotone_amended
    (iid cid ctry m : String) (co : Option String)
    (pre post : List LineItem) (sk cat : String) (fr : Bool)
    (p1 p2 : ℚ) (q1 q2 : ℤ) (inv1 inv2 : Invoice)
    (e1 : inv1 = ⟨iid, cid, ctry, m, co, pre ++ ⟨sk, cat, p1, q1, fr⟩ :: post⟩)
    (e2 : inv2 = ⟨iid, cid, ctry, m, co, pre ++ ⟨sk, cat, p2, q2, fr⟩ :: post⟩)
    (hp : p1 ≤ p2) (hq : q1 ≤ q2)
    (hv1 : validate inv1 = []) (hv2 : validate inv2 = [])
    (hship : shipping ctry (subtotal inv1.items) = shipping ctry (subtotal inv2.items))
    (hflat : truthyRate (MEMBERSHIP_RATE.lookup m) = true ∨
             subtotal inv2.items ≤ 3000 ∨ 3000 < subtotal inv1.items)
    (t1 t2 : ℚ) (w1 w2 : List String)
    (h1 : compute_total inv1 = .ok (t1, w1))
    (h2 : compute_total inv2 = .ok (t2, w2)) :
    t1 ≤ t2 := by
  subst e1
  subst e2
  have hb1 := validate_ok_item _ hv1 ⟨sk, cat, p1, q1, fr⟩ (by simp)
  have hb2 := validate_ok_item _ hv2 ⟨sk, cat, p2, q2, fr⟩ (by simp)
  have hq1 : 0 < q1 := hb1.1
  have hp1 : 0 ≤ p1 := hb1.2
  have hqc : (q1 : ℚ) ≤ (q2 : ℚ) := by exact_mod_cast hq
  have hq1c : (0 : ℚ) ≤ (q1 : ℚ) := by exact_mod_cast le_of_lt hq1
  have hs : subtotal (pre ++ (⟨sk, cat, p1, q1, fr⟩ : LineItem) :: post) ≤
      subtotal (pre ++ (⟨sk, cat, p2, q2, fr⟩ : LineItem) :: post) := by
    rw [subtotal_append_mk, subtotal_append_mk]
    have := mul_le_mul hp hqc hq1c (le_trans hp1 hp)
    linarith
  have hf : fragile_fee (pre ++ (⟨sk, cat, p1, q1, fr⟩ : LineItem) :: post) ≤
      fragile_fee (pre ++ (⟨sk, cat, p2, q2, fr⟩ : LineItem) :: post) := by
    rw [fragile_fee_append_mk, fragile_fee_append_mk]
    cases fr <;> simp [FRAGILE_FEE_PER_ITEM] <;> linarith
  rw [compute_total_eq_ok _ hv1] at h1
  rw [compute_total_eq_ok _ hv2] at h2
  have hh1 := Except.ok.inj h1
  rw [Prod.mk.injEq] at hh1
  have hh2 := Except.ok.inj h2
  rw [Prod.mk.injEq] at hh2
  rw [← hh1.1, ← hh2.1]
  unfold totalFormula totalDiscount
  exact total_core_mono ctry m co _ _ _ _ hs hf hship hflat

/-- C2 witness: raising the scenario 1 invoice's qty from 2 to 3 keeps the
US shipping fee at 8 and both subtotals below 3000, and indeed 116 ≤ 170. -/
theorem c2_total_monotone_amended_witness : (116 : ℚ) ≤ 170 :=
  c2_total_monotone_amended "I1" "C1" "US" "" none [] [] "S1" "book" false
    50 50 2 3 usBookInvoice usBook3Invoice rfl rfl (le_refl 50) (by decide)
    (by decide) (by decide)
    (by simp +decide [usBookInvoice, usBook3Invoice, subtotal, shipping, shippingRulesFor,
        SHIPPING_RULES, shipScan, ltLimit, List.lookup]; norm_num)
    (Or.inr (Or.inl (by simp [usBook3Invoice, subtotal]; norm_num)))
    116 170 [] [] usBookInvoice_eval usBook3Invoice_eval

end InvoiceService
